import Mathlib

/-!
Verification development for the Person/Address/Course demo API
(`main.py`, `models/course.py`).

Entities are embedded as Lean structures.  The per-entity in-memory
dictionaries (`persons`, `addresses`, `courses` in `main.py`) become
insertion-ordered association lists over `Nat` keys: UUIDs are modelled
as abstract `Nat` identifiers and UTC timestamps as abstract `Nat`
clock readings (only their ordering matters to the API).  Handlers
return a pair of the HTTP response (`Except HTTPError α`) and the store
after the call.
-/

namespace SimpleMicroservices

/-- An `HTTPException(status_code, detail)` raised by a handler. -/
structure HTTPError where
  status : Nat
  detail : String
  deriving DecidableEq, Repr

/-- Python `dict.get(key)` / `dict[key]` lookup on an insertion-ordered
mapping modelled as an association list. -/
def storeGet {α : Type} (st : List (Nat × α)) (k : Nat) : Option α :=
  match st with
  | [] => none
  | (k', v) :: rest => if k' == k then some v else storeGet rest k

/-- Python `key in dict`. -/
def storeHas {α : Type} (st : List (Nat × α)) (k : Nat) : Bool :=
  (storeGet st k).isSome

/-- Python `dict[key] = v`: replaces in place when the key is already
present (dicts keep the original insertion position), appends otherwise. -/
def storeSet {α : Type} (st : List (Nat × α)) (k : Nat) (v : α) : List (Nat × α) :=
  match st with
  | [] => [(k, v)]
  | (k', w) :: rest =>
    if k' == k then (k', v) :: rest else (k', w) :: storeSet rest k v

/-- Python `del dict[key]`; dict keys are unique, so dropping every entry
with the key removes exactly the one stored record. -/
def storeDel {α : Type} (st : List (Nat × α)) (k : Nat) : List (Nat × α) :=
  st.filter (fun p => p.1 != k)

/-- Python `list(dict.values())` in insertion order. -/
def storeValues {α : Type} (st : List (Nat × α)) : List α :=
  st.map (fun p => p.2)

/-- Python `needle in hay` on strings asks for a contiguous substring;
`listStartsWith hay needle` is the anchored-at-front check. -/
def listStartsWith : List Char → List Char → Bool
  | _, [] => true
  | [], _ :: _ => false
  | a :: as, b :: bs => a == b && listStartsWith as bs

/-- Python `needle in hay` (substring containment) on character lists. -/
def listContainsSub : List Char → List Char → Bool
  | [], needle => listStartsWith [] needle
  | a :: t, needle => listStartsWith (a :: t) needle || listContainsSub t needle

/-- Python `str.lower()` (the data in this API is ASCII; `Char.toLower`
lower-cases exactly the ASCII letters), as a character list. -/
def lowerChars (s : String) : List Char :=
  s.toList.map Char.toLower

/-- ASCII character class `[A-Z]` of the course-code regex. -/
def isUpperAZ (c : Char) : Bool :=
  'A' ≤ c && c ≤ 'Z'

/-- ASCII digit class `\d` of the course-code regex (the stored codes are
ASCII, where the class is `[0-9]`). -/
def isDigit09 (c : Char) : Bool :=
  '0' ≤ c && c ≤ '9'

/-- One alternative of the anchored course-code regex: exactly `k` leading
uppercase letters followed by exactly 4 digits and nothing else. -/
def codeShape (cs : List Char) (k : Nat) : Bool :=
  cs.length == k + 4 && (cs.take k).all isUpperAZ && (cs.drop k).all isDigit09

/-- `CourseCodeType` of `models/course.py`: the string must match the
anchored pattern `^[A-Z]{2,4}\d{4}$`, i.e. 2, 3 or 4 uppercase letters
followed by exactly 4 digits. -/
def courseCodeMatches (s : String) : Bool :=
  codeShape s.toList 2 || codeShape s.toList 3 || codeShape s.toList 4

/-- The course-code pattern spelled out as a decomposition: `l ++ d` with
2–4 uppercase letters in `l` and exactly 4 digits in `d`. -/
def courseCodeSpec (s : String) : Prop :=
  ∃ l d, s.toList = l ++ d ∧ 2 ≤ l.length ∧ l.length ≤ 4 ∧
    (∀ c ∈ l, isUpperAZ c = true) ∧ d.length = 4 ∧ (∀ c ∈ d, isDigit09 c = true)

/-- `CourseLevel` enum of `models/course.py`. -/
inductive CourseLevel
  | undergraduate
  | graduate
  | doctoral
  deriving DecidableEq, Repr

/-- The literal string value of a `CourseLevel` (it is a `str` enum). -/
def CourseLevel.toStr : CourseLevel → String
  | .undergraduate => "undergraduate"
  | .graduate => "graduate"
  | .doctoral => "doctoral"

/-- `CourseTerm` enum of `models/course.py`. -/
inductive CourseTerm
  | spring
  | summer
  | fall
  deriving DecidableEq, Repr

/-- The literal string value of a `CourseTerm` (it is a `str` enum). -/
def CourseTerm.toStr : CourseTerm → String
  | .spring => "spring"
  | .summer => "summer"
  | .fall => "fall"

/-- `CourseBase`/`CourseCreate` payload of `models/course.py` (the Create
shape adds no fields to the base shape). -/
structure CourseCreate where
  code : String
  title : String
  description : String
  credits : Nat
  instructor : String
  department : String
  level : CourseLevel
  term : CourseTerm
  year : Nat
  max_enrollment : Option Nat
  prerequisites : List String
  meeting_times : Option String
  location : Option String
  deriving DecidableEq, Repr

/-- The declarative field constraints of `CourseBase`, checked by the
schema layer on a create payload: code pattern, `credits` in 0–6
(`credits` is a non-negative integer here, so only the upper bound is a
side condition), `year` in 2020–2030, `max_enrollment ≥ 1` when supplied;
`level` and `term` membership is enforced by their types. -/
def validCourseCreate (c : CourseCreate) : Bool :=
  courseCodeMatches c.code && c.credits ≤ 6 && (2020 ≤ c.year && c.year ≤ 2030) &&
    (match c.max_enrollment with
     | none => true
     | some m => 1 ≤ m)

/-- `CourseRead` of `models/course.py`: the stored server representation —
the base fields plus server-generated `id`, `created_at`, `updated_at`. -/
structure CourseRead where
  code : String
  title : String
  description : String
  credits : Nat
  instructor : String
  department : String
  level : CourseLevel
  term : CourseTerm
  year : Nat
  max_enrollment : Option Nat
  prerequisites : List String
  meeting_times : Option String
  location : Option String
  id : Nat
  created_at : Nat
  updated_at : Nat
  deriving DecidableEq, Repr

/-- `CourseUpdate` of `models/course.py`: a partial patch.  `some v`
models a field explicitly present in the request body; `none` models an
absent field (pydantic "exclude unset" tracking).  For the base-optional
fields the carried value is itself an `Option`.  The shape has no `id`,
`created_at` or `updated_at` field. -/
structure CourseUpdate where
  code : Option String := none
  title : Option String := none
  description : Option String := none
  credits : Option Nat := none
  instructor : Option String := none
  department : Option String := none
  level : Option CourseLevel := none
  term : Option CourseTerm := none
  year : Option Nat := none
  max_enrollment : Option (Option Nat) := none
  prerequisites : Option (List String) := none
  meeting_times : Option (Option String) := none
  location : Option (Option String) := none
  deriving DecidableEq, Repr

/-- Per-field constraints of `CourseUpdate`: only supplied fields are
checked. -/
def validCourseUpdate (u : CourseUpdate) : Bool :=
  (match u.code with
   | none => true
   | some s => courseCodeMatches s) &&
  (match u.credits with
   | none => true
   | some n => n ≤ 6) &&
  (match u.year with
   | none => true
   | some y => 2020 ≤ y && y ≤ 2030) &&
  (match u.max_enrollment with
   | none => true
   | some none => true
   | some (some m) => 1 ≤ m)

/-- `update.model_dump(exclude_unset=True)` is the empty dict exactly when
no field was supplied. -/
def CourseUpdate.isEmpty (u : CourseUpdate) : Bool :=
  u.code.isNone && u.title.isNone && u.description.isNone && u.credits.isNone &&
    u.instructor.isNone && u.department.isNone && u.level.isNone && u.term.isNone &&
    u.year.isNone && u.max_enrollment.isNone && u.prerequisites.isNone &&
    u.meeting_times.isNone && u.location.isNone

/-- `stored.update(update.model_dump(exclude_unset=True))` followed by
`CourseRead(**stored)`: every field present in the patch overwrites the
stored value, absent fields are left untouched; `id`, `created_at` and
`updated_at` are not patch fields and pass through. -/
def mergeCourse (stored : CourseRead) (u : CourseUpdate) : CourseRead :=
  { stored with
    code := u.code.getD stored.code
    title := u.title.getD stored.title
    description := u.description.getD stored.description
    credits := u.credits.getD stored.credits
    instructor := u.instructor.getD stored.instructor
    department := u.department.getD stored.department
    level := u.level.getD stored.level
    term := u.term.getD stored.term
    year := u.year.getD stored.year
    max_enrollment := u.max_enrollment.getD stored.max_enrollment
    prerequisites := u.prerequisites.getD stored.prerequisites
    meeting_times := u.meeting_times.getD stored.meeting_times
    location := u.location.getD stored.location }

/-- One `if <param> is not None: results = [r for r in results if <pred>]`
step, shared by the three list handlers. -/
def optFilter {α β : Type} (o : Option β) (p : β → α → Bool) (l : List α) : List α :=
  match o with
  | none => l
  | some v => l.filter (p v)

/-- Whether a single optional filter accepts a record (`true` when the
filter was not supplied). -/
def optCheck {α β : Type} (o : Option β) (p : β → α → Bool) (x : α) : Bool :=
  match o with
  | none => true
  | some v => p v x

/-- Union of two filter sets: a field is supplied in the union when it is
supplied in either input, and a field supplied in both must carry the same
value for the union to be a well-formed set of filters. -/
def combineOpt {β : Type} (a b : Option β) : Option β :=
  match a with
  | none => b
  | some v => some v

/-- The two filter sets do not supply conflicting values for a field. -/
def OptCompat {β : Type} (a b : Option β) : Prop :=
  a = none ∨ b = none ∨ a = b

/-- Intersection of two result lists, keeping the first list's order. -/
def listInter {α : Type} [DecidableEq α] (xs ys : List α) : List α :=
  xs.filter (fun x => decide (x ∈ ys))

/-- Query parameters of `GET /courses` (`list_courses` in `main.py`). -/
structure CourseQuery where
  code : Option String := none
  title : Option String := none
  instructor : Option String := none
  department : Option String := none
  level : Option String := none
  term : Option String := none
  year : Option Nat := none
  deriving DecidableEq, Repr

/-- `list_courses` (`main.py`): sequential optional filters over the
insertion-ordered store values.  `code`, `level`, `term` compare exactly
(the enum fields compare through their literal string values), `title`,
`instructor`, `department` are case-insensitive substring tests
(`x.lower() in field.lower()`), `year` compares exactly. -/
def list_courses (st : List (Nat × CourseRead)) (q : CourseQuery) : List CourseRead :=
  let r0 := storeValues st
  let r1 := optFilter q.code (fun v c => c.code == v) r0
  let r2 := optFilter q.title (fun v c => listContainsSub (lowerChars c.title) (lowerChars v)) r1
  let r3 := optFilter q.instructor
    (fun v c => listContainsSub (lowerChars c.instructor) (lowerChars v)) r2
  let r4 := optFilter q.department
    (fun v c => listContainsSub (lowerChars c.department) (lowerChars v)) r3
  let r5 := optFilter q.level (fun v c => c.level.toStr == v) r4
  let r6 := optFilter q.term (fun v c => c.term.toStr == v) r5
  optFilter q.year (fun v c => c.year == v) r6

/-- `POST /courses` (`create_course`): stores `CourseRead(**course.model_dump())`.
The `uuid4` and `utcnow` default factories of `CourseRead` are modelled by
the explicit `newId` and `now` parameters. -/
def create_course (st : List (Nat × CourseRead)) (c : CourseCreate) (newId now : Nat) :
    Except HTTPError CourseRead × List (Nat × CourseRead) :=
  let r : CourseRead :=
    { code := c.code, title := c.title, description := c.description,
      credits := c.credits, instructor := c.instructor, department := c.department,
      level := c.level, term := c.term, year := c.year,
      max_enrollment := c.max_enrollment, prerequisites := c.prerequisites,
      meeting_times := c.meeting_times, location := c.location,
      id := newId, created_at := now, updated_at := now }
  (Except.ok r, storeSet st r.id r)

/-- `GET /courses/(course_id)` (`get_course`). -/
def get_course (st : List (Nat × CourseRead)) (cid : Nat) :
    Except HTTPError CourseRead × List (Nat × CourseRead) :=
  match storeGet st cid with
  | none => (Except.error ⟨404, "Course not found"⟩, st)
  | some r => (Except.ok r, st)

/-- `PUT /courses/(course_id)` (`update_course`): merge-update; when the
patch supplies at least one field the merged record is stamped with a
fresh `updated_at` (= `now`) and written back, otherwise the stored record
is returned as-is and the store is untouched. -/
def update_course (st : List (Nat × CourseRead)) (cid : Nat) (u : CourseUpdate) (now : Nat) :
    Except HTTPError CourseRead × List (Nat × CourseRead) :=
  match storeGet st cid with
  | none => (Except.error ⟨404, "Course not found"⟩, st)
  | some stored =>
    if u.isEmpty then
      (Except.ok stored, st)
    else
      let merged := { mergeCourse stored u with updated_at := now }
      (Except.ok merged, storeSet st cid merged)

/-- `DELETE /courses/(course_id)` (`delete_course`). -/
def delete_course (st : List (Nat × CourseRead)) (cid : Nat) :
    Except HTTPError Unit × List (Nat × CourseRead) :=
  if storeHas st cid then
    (Except.ok (), storeDel st cid)
  else
    (Except.error ⟨404, "Course not found"⟩, st)

/-- Modelled from the spec: `models/address.py` is not in the source tree.
Per §3 the Address base shape has plain-string fields street, city, state,
postal_code, country, and identity is a client-supplied UUID `id` carried
by the Create payload. -/
structure AddressCreate where
  id : Nat
  street : String
  city : String
  state : String
  postal_code : String
  country : String
  deriving DecidableEq, Repr

/-- Modelled from the spec: `AddressRead`, the stored representation —
the same fields as the create payload (the id is client-supplied). -/
structure AddressRead where
  id : Nat
  street : String
  city : String
  state : String
  postal_code : String
  country : String
  deriving DecidableEq, Repr

/-- Modelled from the spec: `AddressUpdate`, the base fields all optional
with pydantic "exclude unset" presence tracking (`some v` = field present
in the request body). -/
structure AddressUpdate where
  street : Option String := none
  city : Option String := none
  state : Option String := none
  postal_code : Option String := none
  country : Option String := none
  deriving DecidableEq, Repr

/-- `stored.update(update.model_dump(exclude_unset=True))` followed by
`AddressRead(**stored)` in `update_address`. -/
def mergeAddress (stored : AddressRead) (u : AddressUpdate) : AddressRead :=
  { stored with
    street := u.street.getD stored.street
    city := u.city.getD stored.city
    state := u.state.getD stored.state
    postal_code := u.postal_code.getD stored.postal_code
    country := u.country.getD stored.country }

/-- `POST /addresses` (`create_address`): rejects with a 400 when the
client-supplied id is already a key, otherwise stores
`AddressRead(**address.model_dump())`. -/
def create_address (st : List (Nat × AddressRead)) (a : AddressCreate) :
    Except HTTPError AddressRead × List (Nat × AddressRead) :=
  if storeHas st a.id then
    (Except.error ⟨400, "Address with this ID already exists"⟩, st)
  else
    let r : AddressRead :=
      { id := a.id, street := a.street, city := a.city, state := a.state,
        postal_code := a.postal_code, country := a.country }
    (Except.ok r, storeSet st a.id r)

/-- Query parameters of `GET /addresses` (`list_addresses`). -/
structure AddressQuery where
  street : Option String := none
  city : Option String := none
  state : Option String := none
  postal_code : Option String := none
  country : Option String := none
  deriving DecidableEq, Repr

/-- `GET /addresses` (`list_addresses`): sequential exact-match optional
filters over the insertion-ordered store values. -/
def list_addresses (st : List (Nat × AddressRead)) (q : AddressQuery) : List AddressRead :=
  let r0 := storeValues st
  let r1 := optFilter q.street (fun v a => a.street == v) r0
  let r2 := optFilter q.city (fun v a => a.city == v) r1
  let r3 := optFilter q.state (fun v a => a.state == v) r2
  let r4 := optFilter q.postal_code (fun v a => a.postal_code == v) r3
  optFilter q.country (fun v a => a.country == v) r4

/-- `GET /addresses/(address_id)` (`get_address`). -/
def get_address (st : List (Nat × AddressRead)) (aid : Nat) :
    Except HTTPError AddressRead × List (Nat × AddressRead) :=
  match storeGet st aid with
  | none => (Except.error ⟨404, "Address not found"⟩, st)
  | some r => (Except.ok r, st)

/-- `PATCH /addresses/(address_id)` (`update_address`): merge-update and
write back (the Address handler has no empty-patch shortcut and no
timestamps). -/
def update_address (st : List (Nat × AddressRead)) (aid : Nat) (u : AddressUpdate) :
    Except HTTPError AddressRead × List (Nat × AddressRead) :=
  match storeGet st aid with
  | none => (Except.error ⟨404, "Address not found"⟩, st)
  | some stored =>
    let merged := mergeAddress stored u
    (Except.ok merged, storeSet st aid merged)

/-- Modelled from the spec: the Address-like records embedded in a
Person's `addresses` list (§3); the list handler reads their `city` and
`country` fields. -/
structure EmbAddress where
  street : String
  city : String
  state : String
  postal_code : String
  country : String
  deriving DecidableEq, Repr

/-- Modelled from the spec: `models/person.py` is not in the source tree.
`PersonCreate` carries uni, first_name, last_name, email, phone,
birth_date (kept in its canonical string form, which is what the list
filter compares against) and an ordered list of embedded addresses. -/
structure PersonCreate where
  uni : String
  first_name : String
  last_name : String
  email : String
  phone : String
  birth_date : String
  addresses : List EmbAddress
  deriving DecidableEq, Repr

/-- Modelled from the spec: `PersonRead`, the stored representation —
the base fields plus the server-generated UUID `id`. -/
structure PersonRead where
  uni : String
  first_name : String
  last_name : String
  email : String
  phone : String
  birth_date : String
  addresses : List EmbAddress
  id : Nat
  deriving DecidableEq, Repr

/-- Modelled from the spec: `PersonUpdate`, the base fields all optional
with pydantic "exclude unset" presence tracking. -/
structure PersonUpdate where
  uni : Option String := none
  first_name : Option String := none
  last_name : Option String := none
  email : Option String := none
  phone : Option String := none
  birth_date : Option String := none
  addresses : Option (List EmbAddress) := none
  deriving DecidableEq, Repr

/-- `stored.update(update.model_dump(exclude_unset=True))` followed by
`PersonRead(**stored)` in `update_person`. -/
def mergePerson (stored : PersonRead) (u : PersonUpdate) : PersonRead :=
  { stored with
    uni := u.uni.getD stored.uni
    first_name := u.first_name.getD stored.first_name
    last_name := u.last_name.getD stored.last_name
    email := u.email.getD stored.email
    phone := u.phone.getD stored.phone
    birth_date := u.birth_date.getD stored.birth_date
    addresses := u.addresses.getD stored.addresses }

/-- `POST /persons` (`create_person`): stores `PersonRead(**person.model_dump())`;
the `uuid4` default factory is modelled by the explicit `newId` parameter. -/
def create_person (st : List (Nat × PersonRead)) (p : PersonCreate) (newId : Nat) :
    Except HTTPError PersonRead × List (Nat × PersonRead) :=
  let r : PersonRead :=
    { uni := p.uni, first_name := p.first_name, last_name := p.last_name,
      email := p.email, phone := p.phone, birth_date := p.birth_date,
      addresses := p.addresses, id := newId }
  (Except.ok r, storeSet st r.id r)

/-- Query parameters of `GET /persons` (`list_persons`). -/
structure PersonQuery where
  uni : Option String := none
  first_name : Option String := none
  last_name : Option String := none
  email : Option String := none
  phone : Option String := none
  birth_date : Option String := none
  city : Option String := none
  country : Option String := none
  deriving DecidableEq, Repr

/-- `GET /persons` (`list_persons`): sequential exact-match optional
filters; the nested `city`/`country` filters keep a person when ANY of its
embedded addresses has that exact city/country. -/
def list_persons (st : List (Nat × PersonRead)) (q : PersonQuery) : List PersonRead :=
  let r0 := storeValues st
  let r1 := optFilter q.uni (fun v p => p.uni == v) r0
  let r2 := optFilter q.first_name (fun v p => p.first_name == v) r1
  let r3 := optFilter q.last_name (fun v p => p.last_name == v) r2
  let r4 := optFilter q.email (fun v p => p.email == v) r3
  let r5 := optFilter q.phone (fun v p => p.phone == v) r4
  let r6 := optFilter q.birth_date (fun v p => p.birth_date == v) r5
  let r7 := optFilter q.city (fun v p => p.addresses.any (fun a => a.city == v)) r6
  optFilter q.country (fun v p => p.addresses.any (fun a => a.country == v)) r7

/-- `GET /persons/(person_id)` (`get_person`). -/
def get_person (st : List (Nat × PersonRead)) (pid : Nat) :
    Except HTTPError PersonRead × List (Nat × PersonRead) :=
  match storeGet st pid with
  | none => (Except.error ⟨404, "Person not found"⟩, st)
  | some r => (Except.ok r, st)

/-- `PATCH /persons/(person_id)` (`update_person`): merge-update and write
back. -/
def update_person (st : List (Nat × PersonRead)) (pid : Nat) (u : PersonUpdate) :
    Except HTTPError PersonRead × List (Nat × PersonRead) :=
  match storeGet st pid with
  | none => (Except.error ⟨404, "Person not found"⟩, st)
  | some stored =>
    let merged := mergePerson stored u
    (Except.ok merged, storeSet st pid merged)

/-- Conjunction of the `list_courses` filters accepted by one record. -/
def courseMatches (q : CourseQuery) (c : CourseRead) : Bool :=
  optCheck q.code (fun v c => c.code == v) c &&
    optCheck q.title (fun v c => listContainsSub (lowerChars c.title) (lowerChars v)) c &&
    optCheck q.instructor (fun v c => listContainsSub (lowerChars c.instructor) (lowerChars v)) c &&
    optCheck q.department (fun v c => listContainsSub (lowerChars c.department) (lowerChars v)) c &&
    optCheck q.level (fun v c => c.level.toStr == v) c &&
    optCheck q.term (fun v c => c.term.toStr == v) c &&
    optCheck q.year (fun v c => c.year == v) c

/-- Conjunction of the `list_addresses` filters accepted by one record. -/
def addressMatches (q : AddressQuery) (a : AddressRead) : Bool :=
  optCheck q.street (fun v a => a.street == v) a &&
    optCheck q.city (fun v a => a.city == v) a &&
    optCheck q.state (fun v a => a.state == v) a &&
    optCheck q.postal_code (fun v a => a.postal_code == v) a &&
    optCheck q.country (fun v a => a.country == v) a

/-- Conjunction of the `list_persons` filters accepted by one record. -/
def personMatches (q : PersonQuery) (p : PersonRead) : Bool :=
  optCheck q.uni (fun v p => p.uni == v) p &&
    optCheck q.first_name (fun v p => p.first_name == v) p &&
    optCheck q.last_name (fun v p => p.last_name == v) p &&
    optCheck q.email (fun v p => p.email == v) p &&
    optCheck q.phone (fun v p => p.phone == v) p &&
    optCheck q.birth_date (fun v p => p.birth_date == v) p &&
    optCheck q.city (fun v p => p.addresses.any (fun a => a.city == v)) p &&
    optCheck q.country (fun v p => p.addresses.any (fun a => a.country == v)) p

/-- Union of two Course filter sets. -/
def combineCQ (a b : CourseQuery) : CourseQuery :=
  { code := combineOpt a.code b.code
    title := combineOpt a.title b.title
    instructor := combineOpt a.instructor b.instructor
    department := combineOpt a.department b.department
    level := combineOpt a.level b.level
    term := combineOpt a.term b.term
    year := combineOpt a.year b.year }

/-- The two Course filter sets supply no conflicting value. -/
def CompatCQ (a b : CourseQuery) : Prop :=
  OptCompat a.code b.code ∧ OptCompat a.title b.title ∧
    OptCompat a.instructor b.instructor ∧ OptCompat a.department b.department ∧
    OptCompat a.level b.level ∧ OptCompat a.term b.term ∧ OptCompat a.year b.year

/-- Union of two Address filter sets. -/
def combineAQ (a b : AddressQuery) : AddressQuery :=
  { street := combineOpt a.street b.street
    city := combineOpt a.city b.city
    state := combineOpt a.state b.state
    postal_code := combineOpt a.postal_code b.postal_code
    country := combineOpt a.country b.country }

/-- The two Address filter sets supply no conflicting value. -/
def CompatAQ (a b : AddressQuery) : Prop :=
  OptCompat a.street b.street ∧ OptCompat a.city b.city ∧
    OptCompat a.state b.state ∧ OptCompat a.postal_code b.postal_code ∧
    OptCompat a.country b.country

/-- Union of two Person filter sets. -/
def combinePQ (a b : PersonQuery) : PersonQuery :=
  { uni := combineOpt a.uni b.uni
    first_name := combineOpt a.first_name b.first_name
    last_name := combineOpt a.last_name b.last_name
    email := combineOpt a.email b.email
    phone := combineOpt a.phone b.phone
    birth_date := combineOpt a.birth_date b.birth_date
    city := combineOpt a.city b.city
    country := combineOpt a.country b.country }

/-- The two Person filter sets supply no conflicting value. -/
def CompatPQ (a b : PersonQuery) : Prop :=
  OptCompat a.uni b.uni ∧ OptCompat a.first_name b.first_name ∧
    OptCompat a.last_name b.last_name ∧ OptCompat a.email b.email ∧
    OptCompat a.phone b.phone ∧ OptCompat a.birth_date b.birth_date ∧
    OptCompat a.city b.city ∧ OptCompat a.country b.country

/-- A concrete stored course used to instantiate the theorems. -/
def demoCourse : CourseRead :=
  { code := "COMS4153", title := "Cloud Computing", description := "Intro to cloud",
    credits := 3, instructor := "Dr. Jane Smith", department := "Computer Science",
    level := .graduate, term := .fall, year := 2025, max_enrollment := some 50,
    prerequisites := ["COMS3157"], meeting_times := none, location := none,
    id := 1, created_at := 10, updated_at := 10 }

/-- A concrete course store holding `demoCourse` under its id. -/
def demoCourseStore : List (Nat × CourseRead) :=
  [(1, demoCourse)]

/-- A concrete stored address used to instantiate the theorems. -/
def demoAddress : AddressRead :=
  { id := 7, street := "Main St", city := "Boston", state := "MA",
    postal_code := "02101", country := "USA" }

/-- A concrete address store holding `demoAddress` under its id. -/
def demoAddressStore : List (Nat × AddressRead) :=
  [(7, demoAddress)]

/-- A concrete stored person with two embedded addresses of which only the
first is in Boston. -/
def demoPerson : PersonRead :=
  { uni := "ab1234", first_name := "Ada", last_name := "Byron",
    email := "ab@example.edu", phone := "555-0100", birth_date := "2000-01-01",
    addresses :=
      [{ street := "Main St", city := "Boston", state := "MA",
         postal_code := "02101", country := "USA" },
       { street := "2nd Ave", city := "New York", state := "NY",
         postal_code := "10001", country := "USA" }],
    id := 3 }

/-- A concrete person store holding `demoPerson` under its id. -/
def demoPersonStore : List (Nat × PersonRead) :=
  [(3, demoPerson)]

/-- Writing a record under a key and reading that key gives it back. -/
theorem storeGet_set_self {α : Type} (st : List (Nat × α)) (k : Nat) (v : α) :
    storeGet (storeSet st k v) k = some v := by
  induction st with
  | nil => simp [storeSet, storeGet]
  | cons p rest ih =>
    obtain ⟨k', w⟩ := p
    by_cases h : k' = k
    · simp [storeSet, storeGet, h]
    · simp [storeSet, storeGet, h, ih]

/-- After deleting a key, looking it up yields nothing. -/
theorem storeGet_del_self {α : Type} (st : List (Nat × α)) (k : Nat) :
    storeGet (storeDel st k) k = none := by
  induction st with
  | nil => rfl
  | cons p rest ih =>
    obtain ⟨k', w⟩ := p
    by_cases h : k' = k
    · simpa [storeDel, List.filter_cons, h] using ih
    · simpa [storeDel, List.filter_cons, h, storeGet] using ih

/-- `listStartsWith` is the anchored-prefix decomposition. -/
theorem listStartsWith_iff (hay needle : List Char) :
    listStartsWith hay needle = true ↔ ∃ t, hay = needle ++ t := by
  induction needle generalizing hay with
  | nil => simp [listStartsWith]
  | cons b bs ih =>
    cases hay with
    | nil => simp [listStartsWith]
    | cons a as =>
      simp only [listStartsWith, Bool.and_eq_true, beq_iff_eq, ih, List.cons_append,
        List.cons.injEq]
      constructor
      · rintro ⟨rfl, t, rfl⟩
        exact ⟨t, rfl, rfl⟩
      · rintro ⟨t, rfl, rfl⟩
        exact ⟨rfl, t, rfl⟩

/-- `listContainsSub` is exactly substring containment. -/
theorem listContainsSub_iff (hay needle : List Char) :
    listContainsSub hay needle = true ↔ ∃ s t, hay = s ++ needle ++ t := by
  induction hay with
  | nil =>
    simp only [listContainsSub, listStartsWith_iff]
    constructor
    · rintro ⟨t, h⟩
      exact ⟨[], t, by simpa using h⟩
    · rintro ⟨s, t, h⟩
      rcases List.append_eq_nil.mp (List.append_eq_nil.mp h.symm).1 with ⟨rfl, rfl⟩
      exact ⟨t, by simpa using h⟩
  | cons a as ih =>
    simp only [listContainsSub, Bool.or_eq_true, listStartsWith_iff, ih]
    constructor
    · rintro (⟨t, h⟩ | ⟨s, t, h⟩)
      · exact ⟨[], t, by simpa using h⟩
      · exact ⟨a :: s, t, by simp [h]⟩
    · rintro ⟨s, t, h⟩
      cases s with
      | nil => exact Or.inl ⟨t, by simpa using h⟩
      | cons x xs =>
        simp only [List.cons_append, List.cons.injEq] at h
        exact Or.inr ⟨xs, t, h.2⟩

/-- `codeShape` is the letters-then-digits decomposition of fixed letter
count. -/
theorem codeShape_iff (cs : List Char) (k : Nat) :
    codeShape cs k = true ↔
      ∃ l d, cs = l ++ d ∧ l.length = k ∧ (∀ c ∈ l, isUpperAZ c = true) ∧
        d.length = 4 ∧ (∀ c ∈ d, isDigit09 c = true) := by
  constructor
  · intro h
    simp only [codeShape, Bool.and_eq_true, beq_iff_eq, List.all_eq_true] at h
    obtain ⟨⟨hlen, hup⟩, hdig⟩ := h
    refine ⟨cs.take k, cs.drop k, (List.take_append_drop k cs).symm, ?_, hup, ?_, hdig⟩
    · simp [List.length_take, hlen]
    · simp [List.length_drop, hlen]
  · rintro ⟨l, d, rfl, rfl, hup, hd, hdig⟩
    simp only [codeShape, Bool.and_eq_true, beq_iff_eq, List.all_eq_true]
    refine ⟨⟨by simp [hd], ?_⟩, ?_⟩
    · intro c hc
      exact hup c (by simpa using hc)
    · intro c hc
      exact hdig c (by simpa using hc)

/-- The executable course-code check agrees with the spelled-out pattern. -/
theorem courseCodeMatches_iff (s : String) :
    courseCodeMatches s = true ↔ courseCodeSpec s := by
  simp only [courseCodeMatches, Bool.or_eq_true, codeShape_iff, courseCodeSpec]
  constructor
  · rintro ((⟨l, d, h, hk, hup, hd, hdig⟩ | ⟨l, d, h, hk, hup, hd, hdig⟩) |
      ⟨l, d, h, hk, hup, hd, hdig⟩) <;>
      exact ⟨l, d, h, by omega, by omega, hup, hd, hdig⟩
  · rintro ⟨l, d, h, h2, h4, hup, hd, hdig⟩
    have hk : l.length = 2 ∨ l.length = 3 ∨ l.length = 4 := by omega
    rcases hk with hk | hk | hk
    · exact Or.inl (Or.inl ⟨l, d, h, hk, hup, hd, hdig⟩)
    · exact Or.inl (Or.inr ⟨l, d, h, hk, hup, hd, hdig⟩)
    · exact Or.inr ⟨l, d, h, hk, hup, hd, hdig⟩

/-- A conditional filtering step is a plain filter by `optCheck`. -/
theorem optFilter_eq {α β : Type} (o : Option β) (p : β → α → Bool) (l : List α) :
    optFilter o p l = l.filter (optCheck o p) := by
  cases o with
  | none => exact (List.filter_eq_self.mpr fun a _ => rfl).symm
  | some v => rfl

/-- Membership in one conditional filtering step. -/
theorem mem_optFilter {α β : Type} {o : Option β} {p : β → α → Bool} {l : List α} {x : α} :
    x ∈ optFilter o p l ↔ x ∈ l ∧ ∀ v, o = some v → p v x = true := by
  cases o <;> simp [optFilter]

/-- On non-conflicting options, the union's check is the conjunction of
the two checks. -/
theorem optCheck_combine {α β : Type} {a b : Option β} (p : β → α → Bool) (x : α)
    (h : OptCompat a b) :
    optCheck (combineOpt a b) p x = (optCheck a p x && optCheck b p x) := by
  cases a with
  | none => simp [combineOpt, optCheck]
  | some v =>
    cases b with
    | none => simp [combineOpt, optCheck]
    | some w =>
      rcases h with h | h | h
      · exact absurd h (by simp)
      · exact absurd h (by simp)
      · simp only [Option.some.injEq] at h
        subst h
        simp [combineOpt, optCheck]

/-- Intersecting two filterings of one list filters by the conjunction. -/
theorem listInter_filter {α : Type} [DecidableEq α] (l : List α) (p q : α → Bool) :
    listInter (l.filter p) (l.filter q) = l.filter (fun a => p a && q a) := by
  unfold listInter
  rw [List.filter_filter]
  refine List.filter_congr ?_
  intro a ha
  simp [List.mem_filter, ha, Bool.and_comm]

/-- `list_courses` is one filter by the conjunction of its checks. -/
theorem list_courses_eq (st : List (Nat × CourseRead)) (q : CourseQuery) :
    list_courses st q = (storeValues st).filter (courseMatches q) := by
  simp only [list_courses, optFilter_eq, List.filter_filter]
  refine List.filter_congr ?_
  intro c _
  simp [courseMatches, Bool.and_assoc, Bool.and_comm, Bool.and_left_comm]

/-- `list_addresses` is one filter by the conjunction of its checks. -/
theorem list_addresses_eq (st : List (Nat × AddressRead)) (q : AddressQuery) :
    list_addresses st q = (storeValues st).filter (addressMatches q) := by
  simp only [list_addresses, optFilter_eq, List.filter_filter]
  refine List.filter_congr ?_
  intro a _
  simp [addressMatches, Bool.and_assoc, Bool.and_comm, Bool.and_left_comm]

/-- `list_persons` is one filter by the conjunction of its checks. -/
theorem list_persons_eq (st : List (Nat × PersonRead)) (q : PersonQuery) :
    list_persons st q = (storeValues st).filter (personMatches q) := by
  simp only [list_persons, optFilter_eq, List.filter_filter]
  refine List.filter_congr ?_
  intro p _
  simp [personMatches, Bool.and_assoc, Bool.and_comm, Bool.and_left_comm]

/-- The union of non-conflicting Course filter sets accepts a record
exactly when both sets do. -/
theorem courseMatches_combine {a b : CourseQuery} (h : CompatCQ a b) (c : CourseRead) :
    courseMatches (combineCQ a b) c = (courseMatches a c && courseMatches b c) := by
  obtain ⟨h1, h2, h3, h4, h5, h6, h7⟩ := h
  simp only [courseMatches, combineCQ,
    optCheck_combine _ _ h1, optCheck_combine _ _ h2, optCheck_combine _ _ h3,
    optCheck_combine _ _ h4, optCheck_combine _ _ h5, optCheck_combine _ _ h6,
    optCheck_combine _ _ h7]
  rw [Bool.eq_iff_iff]
  simp only [Bool.and_eq_true]
  tauto

/-- The union of non-conflicting Address filter sets accepts a record
exactly when both sets do. -/
theorem addressMatches_combine {a b : AddressQuery} (h : CompatAQ a b) (x : AddressRead) :
    addressMatches (combineAQ a b) x = (addressMatches a x && addressMatches b x) := by
  obtain ⟨h1, h2, h3, h4, h5⟩ := h
  simp only [addressMatches, combineAQ,
    optCheck_combine _ _ h1, optCheck_combine _ _ h2, optCheck_combine _ _ h3,
    optCheck_combine _ _ h4, optCheck_combine _ _ h5]
  rw [Bool.eq_iff_iff]
  simp only [Bool.and_eq_true]
  tauto

/-- The union of non-conflicting Person filter sets accepts a record
exactly when both sets do. -/
theorem personMatches_combine {a b : PersonQuery} (h : CompatPQ a b) (p : PersonRead) :
    personMatches (combinePQ a b) p = (personMatches a p && personMatches b p) := by
  obtain ⟨h1, h2, h3, h4, h5, h6, h7, h8⟩ := h
  simp only [personMatches, combinePQ,
    optCheck_combine _ _ h1, optCheck_combine _ _ h2, optCheck_combine _ _ h3,
    optCheck_combine _ _ h4, optCheck_combine _ _ h5, optCheck_combine _ _ h6,
    optCheck_combine _ _ h7, optCheck_combine _ _ h8]
  rw [Bool.eq_iff_iff]
  simp only [Bool.and_eq_true]
  tauto

/-- C1: for every stored Address, Person and Course and every Update
payload, the partial-update handler produces — and a re-fetch returns —
a record holding the patch's value for every field present in the patch
(including fields explicitly set to an empty value) and the pre-update
stored value for every absent field (merge, not replace); the identifier
passes through. -/
theorem merge_update_semantics :
    (∀ (st : List (Nat × AddressRead)) (aid : Nat) (old : AddressRead) (u : AddressUpdate),
      storeGet st aid = some old →
      ∃ r, update_address st aid u = (Except.ok r, storeSet st aid r) ∧
        (get_address (update_address st aid u).2 aid).1 = Except.ok r ∧
        r.street = u.street.getD old.street ∧
        r.city = u.city.getD old.city ∧
        r.state = u.state.getD old.state ∧
        r.postal_code = u.postal_code.getD old.postal_code ∧
        r.country = u.country.getD old.country ∧
        r.id = old.id) ∧
    (∀ (st : List (Nat × PersonRead)) (pid : Nat) (old : PersonRead) (u : PersonUpdate),
      storeGet st pid = some old →
      ∃ r, update_person st pid u = (Except.ok r, storeSet st pid r) ∧
        (get_person (update_person st pid u).2 pid).1 = Except.ok r ∧
        r.uni = u.uni.getD old.uni ∧
        r.first_name = u.first_name.getD old.first_name ∧
        r.last_name = u.last_name.getD old.last_name ∧
        r.email = u.email.getD old.email ∧
        r.phone = u.phone.getD old.phone ∧
        r.birth_date = u.birth_date.getD old.birth_date ∧
        r.addresses = u.addresses.getD old.addresses ∧
        r.id = old.id) ∧
    (∀ (st : List (Nat × CourseRead)) (cid : Nat) (old : CourseRead) (u : CourseUpdate)
      (now : Nat), storeGet st cid = some old →
      ∃ r, (update_course st cid u now).1 = Except.ok r ∧
        (get_course (update_course st cid u now).2 cid).1 = Except.ok r ∧
        r.code = u.code.getD old.code ∧
        r.title = u.title.getD old.title ∧
        r.description = u.description.getD old.description ∧
        r.credits = u.credits.getD old.credits ∧
        r.instructor = u.instructor.getD old.instructor ∧
        r.department = u.department.getD old.department ∧
        r.level = u.level.getD old.level ∧
        r.term = u.term.getD old.term ∧
        r.year = u.year.getD old.year ∧
        r.max_enrollment = u.max_enrollment.getD old.max_enrollment ∧
        r.prerequisites = u.prerequisites.getD old.prerequisites ∧
        r.meeting_times = u.meeting_times.getD old.meeting_times ∧
        r.location = u.location.getD old.location ∧
        r.id = old.id) := by
  refine ⟨?_, ?_, ?_⟩
  · intro st aid old u hget
    refine ⟨mergeAddress old u, ?_, ?_, rfl, rfl, rfl, rfl, rfl, rfl⟩
    · simp [update_address, hget]
    · simp [update_address, hget, get_address, storeGet_set_self]
  · intro st pid old u hget
    refine ⟨mergePerson old u, ?_, ?_, rfl, rfl, rfl, rfl, rfl, rfl, rfl, rfl⟩
    · simp [update_person, hget]
    · simp [update_person, hget, get_person, storeGet_set_self]
  · intro st cid old u now hget
    by_cases he : u.isEmpty
    · have hu := he
      simp only [CourseUpdate.isEmpty, Bool.and_eq_true, Option.isNone_iff_eq_none] at hu
      obtain ⟨⟨⟨⟨⟨⟨⟨⟨⟨⟨⟨⟨h1, h2⟩, h3⟩, h4⟩, h5⟩, h6⟩, h7⟩, h8⟩, h9⟩, h10⟩, h11⟩, h12⟩, h13⟩ := hu
      refine ⟨old, ?_, ?_, ?_, ?_, ?_, ?_, ?_, ?_, ?_, ?_, ?_, ?_, ?_, ?_, ?_, rfl⟩ <;>
        simp [update_course, hget, he, get_course, h1, h2, h3, h4, h5, h6, h7, h8, h9,
          h10, h11, h12, h13]
    · refine ⟨{ mergeCourse old u with updated_at := now },
        ?_, ?_, rfl, rfl, rfl, rfl, rfl, rfl, rfl, rfl, rfl, rfl, rfl, rfl, rfl, rfl⟩
      · simp [update_course, hget, he]
      · simp [update_course, hget, he, get_course, storeGet_set_self]

/-- Witness for C1 at a concrete store and patch of each shape. -/
theorem merge_update_semantics_check :
    (∃ r : AddressRead, update_address demoAddressStore 7 { city := some "Cambridge" } =
        (Except.ok r, storeSet demoAddressStore 7 r) ∧
      (get_address (update_address demoAddressStore 7 { city := some "Cambridge" }).2 7).1 =
        Except.ok r ∧
      r.street = demoAddress.street ∧ r.city = "Cambridge" ∧ r.state = demoAddress.state ∧
      r.postal_code = demoAddress.postal_code ∧ r.country = demoAddress.country ∧
      r.id = demoAddress.id) ∧
    (∃ r : CourseRead, (update_course demoCourseStore 1 { title := some "Clouds" } 11).1 =
        Except.ok r ∧ r.title = "Clouds" ∧ r.code = demoCourse.code) := by
  constructor
  · have h := merge_update_semantics.1 demoAddressStore 7 demoAddress
      { city := some "Cambridge" } rfl
    simpa using h
  · obtain ⟨r, h1, _, hcode, htitle, _⟩ := merge_update_semantics.2.2 demoCourseStore 1
      demoCourse { title := some "Clouds" } 11 rfl
    exact ⟨r, h1, by simpa using htitle, by simpa using hcode⟩

/-- C2: a Course update with an empty patch returns the stored record
as-is and leaves the store — hence `updated_at` — untouched; a patch
supplying at least one field yields a record stamped with the fresh clock
reading `now`, which is ≥ the prior `updated_at` whenever the clock has
not gone backwards since the record was stamped. -/
theorem course_update_timestamp (st : List (Nat × CourseRead)) (cid : Nat)
    (old : CourseRead) (u : CourseUpdate) (now : Nat)
    (hget : storeGet st cid = some old) :
    (u.isEmpty = true → update_course st cid u now = (Except.ok old, st)) ∧
    (u.isEmpty = false →
      ∃ r, (update_course st cid u now).1 = Except.ok r ∧ r.updated_at = now ∧
        (old.updated_at ≤ now → old.updated_at ≤ r.updated_at)) := by
  constructor
  · intro he
    simp [update_course, hget, he]
  · intro he
    refine ⟨{ mergeCourse old u with updated_at := now }, ?_, rfl, ?_⟩
    · simp [update_course, hget, he]
    · intro h
      simpa using h

/-- Witness for C2: the empty and a one-field patch on the demo store. -/
theorem course_update_timestamp_check :
    update_course demoCourseStore 1 {} 11 = (Except.ok demoCourse, demoCourseStore) ∧
    (∃ r, (update_course demoCourseStore 1 { credits := some 4 } 11).1 = Except.ok r ∧
      r.updated_at = 11 ∧ demoCourse.updated_at ≤ r.updated_at) := by
  constructor
  · exact (course_update_timestamp demoCourseStore 1 demoCourse {} 11 rfl).1 rfl
  · obtain ⟨r, h1, h2, h3⟩ :=
      (course_update_timestamp demoCourseStore 1 demoCourse { credits := some 4 } 11 rfl).2 rfl
    exact ⟨r, h1, h2, h3 (by decide)⟩

/-- C3: creating an Address whose client-supplied id is already a key
fails with the 400 conflict error and leaves the store — in particular
the record stored under that id — unmodified. -/
theorem address_create_conflict (st : List (Nat × AddressRead)) (a : AddressCreate)
    (r0 : AddressRead) (hget : storeGet st a.id = some r0) :
    create_address st a = (Except.error ⟨400, "Address with this ID already exists"⟩, st) ∧
    storeGet (create_address st a).2 a.id = some r0 := by
  have hhas : storeHas st a.id = true := by simp [storeHas, hget]
  refine ⟨?_, ?_⟩ <;> simp [create_address, hhas, hget]

/-- Witness for C3: re-creating the demo address's id fails and the
stored record survives. -/
theorem address_create_conflict_check :
    create_address demoAddressStore
        { id := 7, street := "Elsewhere", city := "X", state := "Y",
          postal_code := "0", country := "Z" } =
      (Except.error ⟨400, "Address with this ID already exists"⟩, demoAddressStore) ∧
    storeGet (create_address demoAddressStore
        { id := 7, street := "Elsewhere", city := "X", state := "Y",
          postal_code := "0", country := "Z" }).2 7 = some demoAddress := by
  exact address_create_conflict demoAddressStore
    { id := 7, street := "Elsewhere", city := "X", state := "Y",
      postal_code := "0", country := "Z" } demoAddress rfl

/-- C4: the Course and Person create handlers return a Read record whose
base fields equal the input payload's fields, plus the newly generated
identifier; as long as the generated identifier is fresh (the uuid4
collision-cannot-happen assumption of the spec), it differs from every
previously issued identifier. -/
theorem create_returns_input_fields :
    (∀ (st : List (Nat × CourseRead)) (c : CourseCreate) (newId now : Nat)
      (issued : List Nat),
      ∃ r st2, create_course st c newId now = (Except.ok r, st2) ∧
        r.code = c.code ∧ r.title = c.title ∧ r.description = c.description ∧
        r.credits = c.credits ∧ r.instructor = c.instructor ∧
        r.department = c.department ∧ r.level = c.level ∧ r.term = c.term ∧
        r.year = c.year ∧ r.max_enrollment = c.max_enrollment ∧
        r.prerequisites = c.prerequisites ∧ r.meeting_times = c.meeting_times ∧
        r.location = c.location ∧ r.id = newId ∧
        (newId ∉ issued → r.id ∉ issued)) ∧
    (∀ (st : List (Nat × PersonRead)) (p : PersonCreate) (newId : Nat)
      (issued : List Nat),
      ∃ r st2, create_person st p newId = (Except.ok r, st2) ∧
        r.uni = p.uni ∧ r.first_name = p.first_name ∧ r.last_name = p.last_name ∧
        r.email = p.email ∧ r.phone = p.phone ∧ r.birth_date = p.birth_date ∧
        r.addresses = p.addresses ∧ r.id = newId ∧
        (newId ∉ issued → r.id ∉ issued)) := by
  constructor
  · intro st c newId now issued
    exact ⟨_, _, rfl, rfl, rfl, rfl, rfl, rfl, rfl, rfl, rfl, rfl, rfl, rfl, rfl, rfl,
      rfl, fun h => h⟩
  · intro st p newId issued
    exact ⟨_, _, rfl, rfl, rfl, rfl, rfl, rfl, rfl, rfl, rfl, fun h => h⟩

/-- Witness for C4: creating a concrete course in the demo store. -/
theorem create_returns_input_fields_check :
    ∃ r st2, create_course demoCourseStore
        { code := "COMS4995", title := "Special Topics", description := "ML",
          credits := 3, instructor := "Dr. John Doe", department := "Computer Science",
          level := .graduate, term := .spring, year := 2025, max_enrollment := some 30,
          prerequisites := ["COMS4771"], meeting_times := none, location := none }
        2 20 = (Except.ok r, st2) ∧
      r.code = "COMS4995" ∧ r.id = 2 ∧ r.id ∉ [1] := by
  obtain ⟨r, st2, heq, hcode, _, _, _, _, _, _, _, _, _, _, _, _, hid, hfresh⟩ :=
    create_returns_input_fields.1 demoCourseStore
      { code := "COMS4995", title := "Special Topics", description := "ML",
        credits := 3, instructor := "Dr. John Doe", department := "Computer Science",
        level := .graduate, term := .spring, year := 2025, max_enrollment := some 30,
        prerequisites := ["COMS4771"], meeting_times := none, location := none }
      2 20 [1]
  exact ⟨r, st2, heq, hcode, hid, hfresh (by decide)⟩

/-- C5: a string is accepted as a Course code exactly when it consists of
2–4 uppercase ASCII letters followed by exactly 4 digits and nothing else
(the anchored pattern of `CourseCodeType`); the create/update validators
only accept payloads whose (supplied) code passes this check; in
particular "CS123" fails while "COMS4153" and "AB1234" pass. -/
theorem course_code_validation :
    (∀ s : String, courseCodeMatches s = true ↔ courseCodeSpec s) ∧
    (∀ c : CourseCreate, validCourseCreate c = true → courseCodeMatches c.code = true) ∧
    (∀ u : CourseUpdate, validCourseUpdate u = true →
      ∀ v, u.code = some v → courseCodeMatches v = true) ∧
    courseCodeMatches "CS123" = false ∧
    courseCodeMatches "COMS4153" = true ∧
    courseCodeMatches "AB1234" = true := by
  refine ⟨courseCodeMatches_iff, ?_, ?_, by decide, by decide, by decide⟩
  · intro c h
    simp only [validCourseCreate, Bool.and_eq_true] at h
    exact h.1.1.1
  · intro u h v hv
    simp only [validCourseUpdate, Bool.and_eq_true] at h
    have := h.1.1.1
    rw [hv] at this
    exact this

/-- Witness for C5: the accepted code "AB1234" also satisfies the
spelled-out decomposition. -/
theorem course_code_validation_check :
    courseCodeSpec "AB1234" ∧ courseCodeMatches "CS123" = false := by
  refine ⟨(course_code_validation.1 "AB1234").mp (by decide), course_code_validation.2.2.2.1⟩

/-- C6: for each of the three list handlers, listing with the union of two
non-conflicting filter sets returns exactly the intersection of the two
independent listings (all supplied filters combine as a conjunction). -/
theorem list_filters_conjunction :
    (∀ (st : List (Nat × CourseRead)) (A B : CourseQuery), CompatCQ A B →
      list_courses st (combineCQ A B) =
        listInter (list_courses st A) (list_courses st B)) ∧
    (∀ (st : List (Nat × AddressRead)) (A B : AddressQuery), CompatAQ A B →
      list_addresses st (combineAQ A B) =
        listInter (list_addresses st A) (list_addresses st B)) ∧
    (∀ (st : List (Nat × PersonRead)) (A B : PersonQuery), CompatPQ A B →
      list_persons st (combinePQ A B) =
        listInter (list_persons st A) (list_persons st B)) := by
  refine ⟨?_, ?_, ?_⟩
  · intro st A B h
    rw [list_courses_eq, list_courses_eq, list_courses_eq, listInter_filter]
    exact List.filter_congr fun c _ => courseMatches_combine h c
  · intro st A B h
    rw [list_addresses_eq, list_addresses_eq, list_addresses_eq, listInter_filter]
    exact List.filter_congr fun a _ => addressMatches_combine h a
  · intro st A B h
    rw [list_persons_eq, list_persons_eq, list_persons_eq, listInter_filter]
    exact List.filter_congr fun p _ => personMatches_combine h p

/-- Witness for C6: a concrete pair of course filter sets on the demo
store. -/
theorem list_filters_conjunction_check :
    list_courses demoCourseStore
        (combineCQ { department := some "computer" } { year := some 2025 }) =
      listInter (list_courses demoCourseStore { department := some "computer" })
        (list_courses demoCourseStore { year := some 2025 }) := by
  exact list_filters_conjunction.1 demoCourseStore
    { department := some "computer" } { year := some 2025 }
    ⟨Or.inl rfl, Or.inl rfl, Or.inl rfl, Or.inr (Or.inl rfl), Or.inl rfl, Or.inl rfl,
      Or.inl rfl⟩

/-- C7: a stored course appears in the `GET /courses` result exactly when
it passes every supplied filter: `code`, `level`, `term` by exact match
(the enum fields through their literal string values), `title`,
`instructor`, `department` by case-insensitive substring, `year` by exact
numeric match. -/
theorem course_filter_semantics (st : List (Nat × CourseRead)) (q : CourseQuery)
    (c : CourseRead) :
    c ∈ list_courses st q ↔
      c ∈ storeValues st ∧
      (∀ v, q.code = some v → c.code = v) ∧
      (∀ v, q.title = some v → ∃ s t, lowerChars c.title = s ++ lowerChars v ++ t) ∧
      (∀ v, q.instructor = some v →
        ∃ s t, lowerChars c.instructor = s ++ lowerChars v ++ t) ∧
      (∀ v, q.department = some v →
        ∃ s t, lowerChars c.department = s ++ lowerChars v ++ t) ∧
      (∀ v, q.level = some v → c.level.toStr = v) ∧
      (∀ v, q.term = some v → c.term.toStr = v) ∧
      (∀ v, q.year = some v → c.year = v) := by
  simp only [list_courses, mem_optFilter, listContainsSub_iff, beq_iff_eq]
  tauto

/-- Witness for C7: the demo course passes a combined substring and year
filter. -/
theorem course_filter_semantics_check :
    demoCourse ∈ list_courses demoCourseStore
      { department := some "computer", year := some 2025 } := by
  refine (course_filter_semantics demoCourseStore
    { department := some "computer", year := some 2025 } demoCourse).mpr
    ⟨?_, by simp, by simp, by simp, ?_, by simp, by simp, ?_⟩
  · simp [demoCourseStore, storeValues]
  · intro v hv
    obtain rfl : v = "computer" := (Option.some.inj hv).symm
    exact ⟨[], " science".toList, by decide⟩
  · intro v hv
    obtain rfl : v = 2025 := (Option.some.inj hv).symm
    rfl

/-- C8: the Person list handler's `city` (resp. `country`) filter keeps
exactly the stored persons having at least one embedded address whose
city (resp. country) equals the filter value. -/
theorem person_embedded_address_filter (st : List (Nat × PersonRead)) (v : String)
    (p : PersonRead) :
    (p ∈ list_persons st { city := some v } ↔
      p ∈ storeValues st ∧ ∃ a ∈ p.addresses, a.city = v) ∧
    (p ∈ list_persons st { country := some v } ↔
      p ∈ storeValues st ∧ ∃ a ∈ p.addresses, a.country = v) := by
  constructor <;>
    simp [list_persons, mem_optFilter, List.any_eq_true]

/-- Witness for C8: the demo person has two embedded addresses and only
the first is in Boston, yet the person is kept by the `city` filter. -/
theorem person_embedded_address_filter_check :
    demoPerson ∈ list_persons demoPersonStore { city := some "Boston" } := by
  refine ((person_embedded_address_filter demoPersonStore "Boston" demoPerson).1).mpr
    ⟨by simp [demoPersonStore, storeValues], ?_⟩
  exact ⟨⟨"Main St", "Boston", "MA", "02101", "USA"⟩, by simp [demoPerson], rfl⟩

/-- C9: deleting a stored Course removes its record (a re-fetch and a
second delete both fail with the 404 error), while deleting an id that is
not stored fails with the 404 error and leaves the store unchanged. -/
theorem course_delete_semantics (st : List (Nat × CourseRead)) (cid : Nat) :
    (∀ r, storeGet st cid = some r →
      delete_course st cid = (Except.ok (), storeDel st cid) ∧
      (get_course (delete_course st cid).2 cid).1 =
        Except.error ⟨404, "Course not found"⟩ ∧
      delete_course (delete_course st cid).2 cid =
        (Except.error ⟨404, "Course not found"⟩, (delete_course st cid).2)) ∧
    (storeGet st cid = none →
      delete_course st cid = (Except.error ⟨404, "Course not found"⟩, st)) := by
  constructor
  · intro r hr
    refine ⟨by simp [delete_course, storeHas, hr], ?_, ?_⟩
    · simp [delete_course, storeHas, hr, get_course, storeGet_del_self]
    · simp [delete_course, storeHas, hr, storeGet_del_self]
  · intro hr
    simp [delete_course, storeHas, hr]

/-- Witness for C9: deleting the demo course, re-fetching it, deleting it
again, and deleting an unknown id. -/
theorem course_delete_semantics_check :
    delete_course demoCourseStore 1 = (Except.ok (), storeDel demoCourseStore 1) ∧
    (get_course (delete_course demoCourseStore 1).2 1).1 =
      Except.error ⟨404, "Course not found"⟩ ∧
    delete_course (delete_course demoCourseStore 1).2 1 =
      (Except.error ⟨404, "Course not found"⟩, (delete_course demoCourseStore 1).2) ∧
    delete_course demoCourseStore 99 =
      (Except.error ⟨404, "Course not found"⟩, demoCourseStore) := by
  obtain ⟨h1, h2, h3⟩ := (course_delete_semantics demoCourseStore 1).1 demoCourse rfl
  exact ⟨h1, h2, h3, (course_delete_semantics demoCourseStore 99).2 rfl⟩

/-- C10: a Course update — with any patch, empty or not — returns and
stores a record with the same `id` and `created_at` as the stored record:
the `CourseUpdate` shape carries no such fields, so no patch can touch
them. -/
theorem course_update_preserves_identity (st : List (Nat × CourseRead)) (cid : Nat)
    (old : CourseRead) (u : CourseUpdate) (now : Nat)
    (hget : storeGet st cid = some old) :
    ∃ r, (update_course st cid u now).1 = Except.ok r ∧
      r.id = old.id ∧ r.created_at = old.created_at ∧
      (get_course (update_course st cid u now).2 cid).1 = Except.ok r := by
  by_cases he : u.isEmpty
  · exact ⟨old, by simp [update_course, hget, he], rfl, rfl,
      by simp [update_course, hget, he, get_course]⟩
  · refine ⟨{ mergeCourse old u with updated_at := now }, ?_, rfl, rfl, ?_⟩
    · simp [update_course, hget, he]
    · simp [update_course, hget, he, get_course, storeGet_set_self]

/-- Witness for C10: a concrete one-field update of the demo course. -/
theorem course_update_preserves_identity_check :
    ∃ r, (update_course demoCourseStore 1 { year := some 2026 } 12).1 = Except.ok r ∧
      r.id = demoCourse.id ∧ r.created_at = demoCourse.created_at ∧
      (get_course (update_course demoCourseStore 1 { year := some 2026 } 12).2 1).1 =
        Except.ok r :=
  course_update_preserves_identity demoCourseStore 1 demoCourse { year := some 2026 } 12 rfl

end SimpleMicroservices
